import Mathlib

/-!
Verification of the ChatReport conversational intake tool (src/app.py):
the conversation flow engine (`make_flow`, `next_step_id`, `advance`),
the answer classifier (`_yes`), and the report/alert generator
(`generate_report`).  Python strings are modelled as Lean `String`s and
the Python `dict` of collected answers as an association list; Python
`int(...)`, which raises `ValueError` on a non-numeric string, is
modelled with `Option`/`Except`.
-/

set_option maxRecDepth 8000

namespace ChatReport

/-! ### Python string primitives -/

/-- The characters Python's default `str.strip()` removes (ASCII range). -/
def isPySpace (c : Char) : Bool :=
  c == ' ' || c == '\t' || c == '\n' || c == '\r' || c == '\x0b' || c == '\x0c'

/-- ASCII lower-casing of one character, as Python `str.lower()` does on
ASCII input (the app's chip labels and scale values are ASCII). -/
def lowerChar (c : Char) : Char :=
  if 'A' ≤ c && c ≤ 'Z' then Char.ofNat (c.toNat + 32) else c

/-- Python `str.lower()` (ASCII fragment). -/
def pyLower (s : String) : String :=
  ⟨s.data.map lowerChar⟩

/-- Python `str.strip()` with no argument: drop leading and trailing
whitespace. -/
def pyStrip (s : String) : String :=
  ⟨((s.data.dropWhile isPySpace).reverse.dropWhile isPySpace).reverse⟩

/-- `listIsPre a b` holds when the list `a` is an initial segment of `b`. -/
def listIsPre : List Char → List Char → Bool
  | [], _ => true
  | _ :: _, [] => false
  | a :: as, b :: bs => a == b && listIsPre as bs

/-- Helper for `pyIn`: does `sub` occur starting at some position of `hay`? -/
def pyInAux (sub : List Char) : List Char → Bool
  | [] => listIsPre sub []
  | c :: cs => listIsPre sub (c :: cs) || pyInAux sub cs

/-- Python's substring test `sub in hay`. -/
def pyIn (sub hay : String) : Bool :=
  pyInAux sub.data hay.data

/-- `startsW p s`: the string `s` starts with `p`. -/
def startsW (p s : String) : Bool :=
  listIsPre p.data s.data

/-- Numeric value of a list of decimal digits. -/
def digitsVal (l : List Char) : Nat :=
  l.foldl (fun acc c => 10 * acc + (c.toNat - '0'.toNat)) 0

/-- Parse a nonempty all-digit character list, else `none`. -/
def parseDigitList (l : List Char) : Option Nat :=
  if l ≠ [] ∧ l.all Char.isDigit then some (digitsVal l) else none

/-- Python `int(str)` on ASCII decimal numerals: surrounding whitespace,
an optional sign, then a nonempty digit run.  `none` models the
`ValueError` Python raises on anything else.  (Underscore-separated and
non-ASCII digit forms, which the app never produces, are not modelled.) -/
def pyInt (v : String) : Option Int :=
  match (pyStrip v).data with
  | '+' :: ds => (parseDigitList ds).map Int.ofNat
  | '-' :: ds => (parseDigitList ds).map (fun n => -(n : Int))
  | ds => (parseDigitList ds).map Int.ofNat

/-! ### The answer dictionary (`st.session_state.symptoms`) -/

/-- The collected-answers dictionary: every value the app stores is a
string (chip label, scale value rendered with `str`, free text, or a
joined body-region list). -/
abbrev Dict := List (String × String)

/-- Python `s.get(k)` returning `None` when the key is absent. -/
def dget (s : Dict) (k : String) : Option String :=
  (s.find? (fun p => p.1 == k)).map (fun p => p.2)

/-- Python `s[k] = v`: overwrite in place, else append (insertion order
is preserved, as for a Python `dict`). -/
def dset : Dict → String → String → Dict
  | [], k, v => [(k, v)]
  | (k', v') :: rest, k, v =>
    if k' == k then (k, v) :: rest else (k', v') :: dset rest k v

/-- The pattern `s.get(k) or ""` / `s.get(k, "")` (identical on
string-valued dictionaries). -/
def getS (s : Dict) (k : String) : String :=
  (dget s k).getD ""

/-! ### `_yes` — the yes/no answer classifier (src/app.py lines 696-702) -/

/-- The fixed positive/intensity word list of `_yes`. -/
def yesWords : List String :=
  ["yes", "a little", "somewhat", "a lot", "often",
   "constantly", "most", "on and off", "only",
   "occasionally", "noticeably", "quite", "very",
   "difficulty", "trouble"]

/-- The membership scan of `_yes` on the already lower-cased, stripped
value. -/
def yesAny (v : String) : Bool :=
  yesWords.any (fun w => pyIn w v)

/-- `_yes(val)`: lower-case and strip, then test whether any word of the
fixed list occurs as a substring. -/
def _yes (val : String) : Bool :=
  yesAny (pyStrip (pyLower val))

/-! ### The flow definition (`make_flow`, src/app.py lines 389-690)

Each `cond` lambda in the source has one of three shapes; they are
embedded as a small `Cond` type with an evaluator so that the flow is a
first-order value. -/

/-- The three `cond` lambda shapes of `make_flow`:
`lambda s: _yes(s.get(key, ""))`, `lambda s: "lost" in s.get(key, "").lower()`,
and `lambda s: int(s.get("fatigue_level", 0) or 0) >= 4`. -/
inductive Cond where
  | yesOf (key : String)
  | lostIn (key : String)
  | fatigueGe4
deriving DecidableEq, Repr

/-- Evaluate a `cond` lambda on the answer dictionary.  `.error ()`
models the `ValueError` that `int(...)` raises on a non-numeric,
nonempty `fatigue_level` string. -/
def evalCond : Cond → Dict → Except Unit Bool
  | .yesOf k, s => .ok (_yes (getS s k))
  | .lostIn k, s => .ok (pyIn "lost" (pyLower (getS s k)))
  | .fatigueGe4, s =>
    match dget s "fatigue_level" with
    | none => .ok (decide ((0 : Int) ≥ 4))
    | some v =>
      if v == "" then .ok (decide ((0 : Int) ≥ 4))
      else
        match pyInt v with
        | none => .error ()
        | some n => .ok (decide (n ≥ 4))

/-- One entry of the `FLOW` table. -/
structure Step where
  id : String
  type : String
  msg : String
  key : Option String := none
  chips : List String := []
  cond : Option Cond := none
  nextId : Option String
deriving DecidableEq, Repr

/-- The terminal step of the flow (`"done"`, lines 677-689): an `info`
step with no answer key and `next = None`. -/
def doneStep : Step :=
  { id := "done", type := "info",
    msg := "Thank you so much, **\x7bname\x7d**! 🙏 You've done a wonderful job sharing how you've been feeling.\n\nYour responses have been recorded and a summary report will be sent to your care team before your appointment. They'll review it and be ready to discuss your concerns with you.\n\nIf you have any urgent concerns before your appointment, please contact your care team directly. Take care of yourself! 💙",
    nextId := none }

/-- The ordered conversation flow, transcribed from `make_flow`
(src/app.py lines 389-690); `nextId` is the step's `"next"` field. -/
def make_flow : List Step := [
  { id := "welcome", type := "info",
    msg := "👋 Hello! I'm **ChatReport**, a symptom-reporting assistant from Fox Chase Cancer Center and Temple University.\n\nI'm here to help your care team understand how you've been feeling before your upcoming appointment. This should take about **10–15 minutes**.\n\nEverything you share stays private and goes only to your medical team. You can be as brief or as detailed as you'd like.",
    nextId := some "name" },
  { id := "name", type := "text",
    msg := "To get started — what's your **first name**?",
    key := some "patient_name", nextId := some "intro2" },
  { id := "intro2", type := "info",
    msg := "Nice to meet you, \x7bname\x7d! 😊 Thank you for taking the time to do this. Let's go through some questions about how you've been feeling. There are no right or wrong answers — just share what's true for you.",
    nextId := some "pain_q1" },
  { id := "pain_q1", type := "chips",
    msg := "**Pain** 😣\n\nHave you had any pain since your last appointment?",
    key := some "pain_present", chips := ["Yes", "No", "A little"],
    nextId := some "pain_body" },
  { id := "pain_body", type := "body",
    msg := "I'm sorry to hear that. 💙 Can you show me **where** you're feeling the pain? Tap the area(s) on the diagram below.",
    key := some "pain_location", cond := some (.yesOf "pain_present"),
    nextId := some "pain_severity" },
  { id := "pain_severity", type := "scale",
    msg := "On a scale of **0 to 10** — where 0 is no pain and 10 is the worst pain you can imagine — how would you rate your pain **at its worst**?",
    key := some "pain_severity", cond := some (.yesOf "pain_present"),
    nextId := some "pain_frequency" },
  { id := "pain_frequency", type := "chips",
    msg := "How often do you experience this pain?",
    key := some "pain_frequency",
    chips := ["Constantly", "Most of the day", "On and off", "Only when swallowing", "Only at night"],
    cond := some (.yesOf "pain_present"), nextId := some "pain_management" },
  { id := "pain_management", type := "text",
    msg := "Are you doing anything to manage the pain? For example, medication, ice packs, or anything else?",
    key := some "pain_management", cond := some (.yesOf "pain_present"),
    nextId := some "pain_impact" },
  { id := "pain_impact", type := "text",
    msg := "How much is the pain affecting your day-to-day life — things like eating, sleeping, or doing activities?",
    key := some "pain_impact", cond := some (.yesOf "pain_present"),
    nextId := some "mouth_q1" },
  { id := "mouth_q1", type := "chips",
    msg := "**Mouth Symptoms** 👄\n\nHave you noticed any dryness, sores, or changes in your mouth?",
    key := some "mouth_present", chips := ["Yes", "No", "A little"],
    nextId := some "mouth_dry" },
  { id := "mouth_dry", type := "chips",
    msg := "Is your mouth feeling **very dry** (like you can't make enough saliva)?",
    key := some "mouth_dry", chips := ["Yes, very dry", "Somewhat dry", "Not really"],
    cond := some (.yesOf "mouth_present"), nextId := some "mouth_sores" },
  { id := "mouth_sores", type := "chips",
    msg := "Do you have any **sores or ulcers** inside your mouth?",
    key := some "mouth_sores", chips := ["Yes", "No", "Not sure"],
    cond := some (.yesOf "mouth_present"), nextId := some "mouth_taste" },
  { id := "mouth_taste", type := "chips",
    msg := "Have you noticed any **changes in how food tastes**?",
    key := some "mouth_taste", chips := ["Yes, very different", "A little different", "No change"],
    cond := some (.yesOf "mouth_present"), nextId := some "mouth_impact" },
  { id := "mouth_impact", type := "text",
    msg := "How much are these mouth symptoms affecting your ability to **eat or drink**?",
    key := some "mouth_impact", cond := some (.yesOf "mouth_present"),
    nextId := some "swallow_q1" },
  { id := "swallow_q1", type := "chips",
    msg := "**Swallowing** 🥤\n\nHave you had any difficulty swallowing since your last visit?",
    key := some "swallow_present", chips := ["Yes", "No", "A little"],
    nextId := some "swallow_pain" },
  { id := "swallow_pain", type := "chips",
    msg := "Does swallowing cause you **pain**?",
    key := some "swallow_pain", chips := ["Yes, a lot", "A little", "No"],
    cond := some (.yesOf "swallow_present"), nextId := some "swallow_diet" },
  { id := "swallow_diet", type := "chips",
    msg := "What types of food are you able to eat right now?",
    key := some "swallow_diet",
    chips := ["Regular food", "Soft foods only", "Pureed foods", "Liquids only", "Feeding tube only"],
    cond := some (.yesOf "swallow_present"), nextId := some "swallow_choking" },
  { id := "swallow_choking", type := "chips",
    msg := "Have you had any **choking or coughing** episodes when eating or drinking?",
    key := some "swallow_choking", chips := ["Yes, often", "Occasionally", "No"],
    cond := some (.yesOf "swallow_present"), nextId := some "nutrition_q1" },
  { id := "nutrition_q1", type := "chips",
    msg := "**Nutrition & Appetite** 🍽️\n\nHow is your appetite lately?",
    key := some "nutrition_appetite", chips := ["Good", "Reduced", "Very poor", "No appetite at all"],
    nextId := some "nutrition_weight" },
  { id := "nutrition_weight", type := "chips",
    msg := "Have you noticed any **weight changes** recently?",
    key := some "nutrition_weight",
    chips := ["Yes, lost weight", "Yes, gained weight", "No change", "Not sure"],
    nextId := some "nutrition_weight_amt" },
  { id := "nutrition_weight_amt", type := "text",
    msg := "About how much weight have you lost, and over how long?",
    key := some "nutrition_weight_amt", cond := some (.lostIn "nutrition_weight"),
    nextId := some "nutrition_nausea" },
  { id := "nutrition_nausea", type := "chips",
    msg := "Have you experienced any **nausea or vomiting**?",
    key := some "nutrition_nausea", chips := ["Yes, often", "Occasionally", "No"],
    nextId := some "nutrition_supplements" },
  { id := "nutrition_supplements", type := "chips",
    msg := "Are you using any **nutritional supplements** (like Ensure, Boost, or shakes)?",
    key := some "nutrition_supplements", chips := ["Yes", "No", "Sometimes"],
    nextId := some "breathing_q1" },
  { id := "breathing_q1", type := "chips",
    msg := "**Breathing** 🫁\n\nHave you had any shortness of breath or difficulty breathing?",
    key := some "breathing_present", chips := ["Yes", "No", "A little"],
    nextId := some "breathing_detail" },
  { id := "breathing_detail", type := "text",
    msg := "Can you describe when it happens — for example, at rest, when walking, or at night?",
    key := some "breathing_detail", cond := some (.yesOf "breathing_present"),
    nextId := some "fatigue_q1" },
  { id := "fatigue_q1", type := "scale",
    msg := "**Energy & Fatigue** 😴\n\nOn a scale of 0–10, how would you rate your **fatigue** or tiredness? (0 = not tired at all, 10 = completely exhausted)",
    key := some "fatigue_level", nextId := some "fatigue_impact" },
  { id := "fatigue_impact", type := "text",
    msg := "How is the fatigue affecting your daily activities — like taking care of yourself, household tasks, or going out?",
    key := some "fatigue_impact", cond := some .fatigueGe4,
    nextId := some "mood_q1" },
  { id := "mood_q1", type := "chips",
    msg := "**Emotional Wellbeing** 💙\n\nTreatment can be really tough, and it's completely normal to have a range of feelings. How would you describe your **mood** lately?",
    key := some "mood_general",
    chips := ["Good / Positive", "A bit down", "Anxious or worried", "Quite sad", "Very distressed"],
    nextId := some "mood_anxiety" },
  { id := "mood_anxiety", type := "chips",
    msg := "Have you been feeling **worried or anxious** about your treatment or health?",
    key := some "mood_anxiety", chips := ["Yes, a lot", "Sometimes", "Not really"],
    nextId := some "mood_sleep" },
  { id := "mood_sleep", type := "chips",
    msg := "How has your **sleep** been?",
    key := some "mood_sleep",
    chips := ["Sleeping well", "Some trouble sleeping", "Difficulty most nights", "Can't sleep at all"],
    nextId := some "mood_support" },
  { id := "mood_support", type := "chips",
    msg := "Do you feel you have enough **support** from family, friends, or your care team?",
    key := some "mood_support",
    chips := ["Yes, I feel supported", "Somewhat", "No, I need more support"],
    nextId := some "other_q1" },
  { id := "other_q1", type := "chips",
    msg := "**Other Symptoms** 🩺\n\nHave you had any **cough** that's been bothersome?",
    key := some "other_cough", chips := ["Yes", "No", "A little"],
    nextId := some "other_skin" },
  { id := "other_skin", type := "chips",
    msg := "Have you noticed any **skin changes** in the area being treated — like redness, peeling, or soreness?",
    key := some "other_skin", chips := ["Yes", "No", "A little"],
    nextId := some "other_concentration" },
  { id := "other_concentration", type := "chips",
    msg := "Have you had **difficulty concentrating** or remembering things?",
    key := some "other_concentration", chips := ["Yes, noticeably", "A little", "No"],
    nextId := some "closing_q1" },
  { id := "closing_q1", type := "text",
    msg := "We're almost done! 🎉\n\nIs there anything else you'd like your care team to know before your appointment — anything we haven't covered, or anything you want to make sure they see?",
    key := some "additional_notes", nextId := some "done" },
  doneStep]

/-! ### The flow navigator (`next_step_id`, src/app.py lines 732-751) -/

/-- `get_step(step_id)`: find a step by id. -/
def get_step (stepId : String) : Option Step :=
  make_flow.find? (fun st => st.id == stepId)

/-- Python `list.index` wrapped in `try/except ValueError` (`none` for a
missing element), as `next_step_id` uses it. -/
def pyIndex : List String → String → Option Nat
  | [], _ => none
  | x :: xs, k => if x == k then some 0 else (pyIndex xs k).map (· + 1)

/-- The `while i < len(flow)` walk of `next_step_id` over the steps after
the current index: return the first step whose `cond` is absent or
true; propagate a raising `cond`; `none` when the list is exhausted. -/
def nextFrom : List Step → Dict → Except Unit (Option String)
  | [], _ => .ok none
  | st :: rest, s =>
    match st.cond with
    | none => .ok (some st.id)
    | some c =>
      match evalCond c s with
      | .error e => .error e
      | .ok true => .ok (some st.id)
      | .ok false => nextFrom rest s

/-- `next_step_id(current_id, symptoms)`: index the current id in the
flow (an unknown id returns `None`), then walk forward positionally,
skipping steps whose `cond` evaluates false.  `.error ()` models the
`ValueError` escaping from the fatigue `cond`. -/
def next_step_id (currentId : String) (s : Dict) : Except Unit (Option String) :=
  match pyIndex (make_flow.map (fun st => st.id)) currentId with
  | none => .ok none
  | some idx => nextFrom (make_flow.drop (idx + 1)) s

/-! ### Claim-side navigator characterization -/

/-- A step is *included* for the answers `s` when its `include_if`
(`cond`) is absent or evaluates to true (a raising predicate did not
evaluate to true). -/
def included (st : Step) (s : Dict) : Bool :=
  match st.cond with
  | none => true
  | some c =>
    match evalCond c s with
    | .ok b => b
    | .error _ => false

/-- The claim's reading of the navigator: the id of the first included
candidate step after the current one, `none` when no included step
remains or the current id is not in the flow. -/
def specNextStep (currentId : String) (s : Dict) : Option String :=
  match pyIndex (make_flow.map (fun st => st.id)) currentId with
  | none => none
  | some idx => ((make_flow.drop (idx + 1)).find? (fun st => included st s)).map (fun st => st.id)

/-- An optional stored value on which Python `int(value or 0)` does not
raise: absent, empty, or an integer numeral. -/
def numStrOk : Option String → Bool
  | none => true
  | some v => v == "" || (pyInt v).isSome

/-- The fatigue `cond` (the only partial one) evaluates without raising. -/
def fatigueOk (s : Dict) : Bool :=
  numStrOk (dget s "fatigue_level")

/-! ### The report generator and alert engine
(`generate_report`, src/app.py lines 757-930)

The one impurity of `generate_report` is `datetime.now()`, rendered
into the Report Date header line; it is modelled as the explicit
argument `now` (the clock reading at call time).  The `int(...)` on
`pain_severity` (line 778) happens before any line is emitted, so the
whole function is `painSevE` followed by a total renderer. -/

/-- `pain_sev = int(s.get("pain_severity", 0) or 0)` (line 778);
`.error ()` models the `ValueError` on a nonempty non-numeric value. -/
def painSevE (s : Dict) : Except Unit Int :=
  match dget s "pain_severity" with
  | none => .ok 0
  | some v =>
    if v == "" then .ok 0
    else
      match pyInt v with
      | none => .error ()
      | some n => .ok n

/-- Python `x or default` on an optional string: the default replaces
both a missing key and an empty string. -/
def pyOr (o : Option String) (d : String) : String :=
  match o with
  | none => d
  | some v => if v == "" then d else v

/-- Python truthiness of `s.get(k)`: present with a nonempty value. -/
def truthy (o : Option String) : Bool :=
  match o with
  | none => false
  | some v => v != ""

/-- `"=" * 62`. -/
def eq62 : String := ⟨List.replicate 62 '='⟩

/-- `"-" * 62`. -/
def dash62 : String := ⟨List.replicate 62 '-'⟩

/-- Alert line 780. -/
def sevPainMsg (sev : Int) : String :=
  "Severe pain reported (" ++ toString sev ++ "/10) — review pain management"

/-- Alert line 782. -/
def modPainMsg (sev : Int) : String :=
  "Moderate pain (" ++ toString sev ++ "/10) — monitor closely"

/-- Alert line 785. -/
def dietMsg : String :=
  "Patient on liquids only or feeding tube — nutritional consult may be needed"

/-- Alert line 788. -/
def weightMsg (s : Dict) : String :=
  "Weight loss reported: " ++ (dget s "nutrition_weight_amt").getD "amount not specified"

/-- Alert line 792. -/
def moodHighMsg : String :=
  "Patient reports significant emotional distress — consider psychosocial referral"

/-- Alert line 794. -/
def moodWatchMsg : String :=
  "Elevated anxiety/low mood — check in during appointment"

/-- Alert line 798. -/
def breathMsg : String :=
  "Breathing difficulties reported — assess for obstruction or infection"

/-- Line 784: `"only" in (s.get("swallow_diet") or "").lower() or
"tube" in (s.get("swallow_diet") or "").lower()`. -/
def dietFlag (s : Dict) : Bool :=
  pyIn "only" (pyLower (getS s "swallow_diet")) || pyIn "tube" (pyLower (getS s "swallow_diet"))

/-- Line 787: `"lost" in (s.get("nutrition_weight") or "").lower()`. -/
def lostFlag (s : Dict) : Bool :=
  pyIn "lost" (pyLower (getS s "nutrition_weight"))

/-- Line 791: severe-distress mood categories. -/
def moodHighFlag (s : Dict) : Bool :=
  pyIn "very distressed" (pyLower (getS s "mood_general"))
    || pyIn "quite sad" (pyLower (getS s "mood_general"))

/-- Line 793: moderate-concern mood categories (the `elif`). -/
def moodWatchFlag (s : Dict) : Bool :=
  pyIn "anxious" (pyLower (getS s "mood_general"))
    || pyIn "a bit down" (pyLower (getS s "mood_general"))

/-- Lines 796-797: `_yes((s.get("breathing_present") or "").lower())`. -/
def breathFlag (s : Dict) : Bool :=
  _yes (pyLower (getS s "breathing_present"))

/-- The `high_alerts` list in the order the source appends to it
(lines 778-798): severe pain, restricted diet, severe mood distress,
breathing difficulty. -/
def high_alerts (sev : Int) (s : Dict) : List String :=
  (if sev ≥ 7 then [sevPainMsg sev] else [])
    ++ (if dietFlag s then [dietMsg] else [])
    ++ (if moodHighFlag s then [moodHighMsg] else [])
    ++ (if breathFlag s then [breathMsg] else [])

/-- The `watch_alerts` list in the order the source appends to it:
moderate pain (the `elif` of line 781), weight loss, moderate mood
concern (the `elif` of line 793). -/
def watch_alerts (sev : Int) (s : Dict) : List String :=
  (if ¬sev ≥ 7 ∧ sev ≥ 4 then [modPainMsg sev] else [])
    ++ (if lostFlag s then [weightMsg s] else [])
    ++ (if ¬moodHighFlag s ∧ moodWatchFlag s then [moodWatchMsg] else [])

/-- `present_any` after the four symptom blocks ran. -/
def presentAny (s : Dict) : Bool :=
  _yes (getS s "pain_present") || _yes (getS s "mouth_present")
    || _yes (getS s "swallow_present") || _yes (getS s "breathing_present")

/-- Lines 805-814: the PAIN block. -/
def painBlock (s : Dict) (sev : Int) : List String :=
  if _yes (getS s "pain_present") then
    ["", "  PAIN — PRESENT",
     "    Location    : " ++ pyOr (dget s "pain_location") "Not specified",
     "    Severity    : " ++ toString sev ++ "/10" ++ (if sev ≥ 7 then " ⚠️  HIGH" else ""),
     "    Frequency   : " ++ (dget s "pain_frequency").getD "Not reported",
     "    Management  : " ++ (dget s "pain_management").getD "None reported",
     "    Impact      : " ++ (dget s "pain_impact").getD "Not described"]
  else []

/-- Lines 817-824: the MOUTH block. -/
def mouthBlock (s : Dict) : List String :=
  if _yes (getS s "mouth_present") then
    ["", "  MOUTH SYMPTOMS — PRESENT",
     "    Dry Mouth   : " ++ (dget s "mouth_dry").getD "Not specified",
     "    Mouth Sores : " ++ (dget s "mouth_sores").getD "Not specified",
     "    Taste Change: " ++ (dget s "mouth_taste").getD "Not specified",
     "    Impact      : " ++ (dget s "mouth_impact").getD "Not described"]
  else []

/-- Lines 827-833: the SWALLOWING block. -/
def swallowBlock (s : Dict) : List String :=
  if _yes (getS s "swallow_present") then
    ["", "  SWALLOWING DIFFICULTY — PRESENT",
     "    Pain w/ swallow: " ++ (dget s "swallow_pain").getD "Not specified",
     "    Diet level     : " ++ (dget s "swallow_diet").getD "Not specified",
     "    Choking/cough  : " ++ (dget s "swallow_choking").getD "Not reported"]
  else []

/-- Lines 836-840: the BREATHING block. -/
def breathBlock (s : Dict) : List String :=
  if _yes (getS s "breathing_present") then
    ["", "  BREATHING DIFFICULTY — PRESENT ⚠️",
     "    Details: " ++ (dget s "breathing_detail").getD "Not described"]
  else []

/-- Lines 801-846: the SYMPTOMS PRESENT section. -/
def symptomsSection (s : Dict) (sev : Int) : List String :=
  ["🔴  SYMPTOMS PRESENT", dash62]
    ++ painBlock s sev ++ mouthBlock s ++ swallowBlock s ++ breathBlock s
    ++ (if presentAny s then [] else ["  (No major physical symptoms reported)"])
    ++ ["", eq62]

/-- Lines 849-857: NUTRITIONAL STATUS. -/
def nutritionSection (s : Dict) : List String :=
  ["", "📊  NUTRITIONAL STATUS", dash62,
   "  Appetite      : " ++ (dget s "nutrition_appetite").getD "Not reported",
   "  Weight        : " ++ (dget s "nutrition_weight").getD "Not reported"]
    ++ (if truthy (dget s "nutrition_weight_amt") then
          ["  Weight amt    : " ++ getS s "nutrition_weight_amt"] else [])
    ++ ["  Nausea/Vomit  : " ++ (dget s "nutrition_nausea").getD "Not reported",
        "  Supplements   : " ++ (dget s "nutrition_supplements").getD "Not reported"]

/-- Lines 860-866: FATIGUE. -/
def fatigueSection (s : Dict) : List String :=
  ["", "😴  FATIGUE", dash62,
   "  Fatigue Level : " ++ (dget s "fatigue_level").getD "Not rated" ++ "/10"]
    ++ (if truthy (dget s "fatigue_impact") then
          ["  Impact        : " ++ getS s "fatigue_impact"] else [])

/-- Lines 869-875: EMOTIONAL WELLBEING. -/
def moodSection (s : Dict) : List String :=
  ["", "💭  EMOTIONAL WELLBEING", dash62,
   "  General Mood  : " ++ (dget s "mood_general").getD "Not reported",
   "  Anxiety       : " ++ (dget s "mood_anxiety").getD "Not reported",
   "  Sleep         : " ++ (dget s "mood_sleep").getD "Not reported",
   "  Support       : " ++ (dget s "mood_support").getD "Not reported"]

/-- Lines 878-883: OTHER SYMPTOMS. -/
def otherSection (s : Dict) : List String :=
  ["", "🩺  OTHER SYMPTOMS", dash62,
   "  Cough         : " ++ (dget s "other_cough").getD "Not reported",
   "  Skin changes  : " ++ (dget s "other_skin").getD "Not reported",
   "  Concentration : " ++ (dget s "other_concentration").getD "Not reported"]

/-- Lines 886-890: ADDITIONAL NOTES, only when truthy. -/
def notesSection (s : Dict) : List String :=
  if truthy (dget s "additional_notes") then
    ["", "📝  ADDITIONAL NOTES (patient's words)", dash62,
     "  " ++ getS s "additional_notes"]
  else []

/-- Lines 893-901: the labels whose presence answer is nonempty and not
`_yes`, in the order of the `checks` dict. -/
def notPresentList (s : Dict) : List String :=
  [("Pain", "pain_present"), ("Mouth symptoms", "mouth_present"),
   ("Swallowing difficulty", "swallow_present"),
   ("Breathing problems", "breathing_present")].filterMap
    (fun p =>
      let v := getS s p.2
      if v ≠ "" ∧ ¬_yes v then some p.1 else none)

/-- Lines 903-908: SYMPTOMS NOT REPORTED, only when nonempty. -/
def notPresentSection (s : Dict) : List String :=
  let np := notPresentList s
  if np = [] then []
  else ["", "✅  SYMPTOMS NOT REPORTED", dash62] ++ np.map (fun x => "  • " ++ x)

/-- Lines 915-922: render the two alert lists; the single shared
placeholder is emitted only when both lists are empty. -/
def alertLines (hs ws : List String) : List String :=
  hs.map (fun a => "  🔴 HIGH PRIORITY: " ++ a)
    ++ ws.map (fun a => "  ⚠️  MONITOR: " ++ a)
    ++ (if hs.isEmpty && ws.isEmpty then ["  ✅ No critical alerts at this time."] else [])

/-- The placeholder line of line 922. -/
def noAlertsLine : String := "  ✅ No critical alerts at this time."

/-- All lines of the report, in emission order.  The Report Date line
(the only use of the clock) sits at index 5. -/
def reportLines (now : String) (s : Dict) (sev : Int) : List String :=
  eq62 ::
  "  CHATREPORT SYMPTOM SUMMARY" ::
  "  Fox Chase Cancer Center × Temple University" ::
  eq62 ::
  ("  Patient Name  : " ++ (dget s "patient_name").getD "Unknown") ::
  ("  Report Date   : " ++ now) ::
  "  Report Type   : Pre-Appointment Symptom Checkin" ::
  eq62 ::
  "" ::
  (symptomsSection s sev
    ++ nutritionSection s
    ++ fatigueSection s
    ++ moodSection s
    ++ otherSection s
    ++ notesSection s
    ++ notPresentSection s
    ++ ["", eq62, "  CLINICAL ALERTS", eq62]
    ++ alertLines (high_alerts sev s) (watch_alerts sev s)
    ++ ["", eq62,
        "  This report was generated by ChatReport (Phase 1 prototype).",
        "  For clinical decisions, consult the treating physician.",
        eq62])

/-- `generate_report(s)` with the clock reading `now` as an explicit
argument: parse `pain_severity`, then join all lines with newlines. -/
def generate_report (now : String) (s : Dict) : Except Unit String :=
  match painSevE s with
  | .error e => .error e
  | .ok sev => .ok (String.intercalate "\n" (reportLines now s sev))

/-- The two alert lists of one `generate_report` run, as a pair. -/
def alertsOf (s : Dict) : Except Unit (List String × List String) :=
  match painSevE s with
  | .error e => .error e
  | .ok sev => .ok (high_alerts sev s, watch_alerts sev s)

/-- Claim-side: a *pain-related* alert entry is one produced by the two
pain rules, recognized by their fixed message prefixes (no other rule's
message starts with either prefix, whatever the answers contain). -/
def painRelated (m : String) : Bool :=
  startsW "Severe pain" m || startsW "Moderate pain" m

/-! ### `classify_severity_0_10` (spec §4.1)

Severity answers in src/app.py are collected through the 0-10 scale
buttons of `render_bubble` (lines 1095-1109), so no text-parsing
severity classifier exists in the source file. -/

/-- The spec's fixed word-to-number mapping, in its listed order. -/
def severityWords : List (String × Nat) :=
  [("none", 0), ("mild", 2), ("moderate", 5), ("severe", 8), ("worst", 10)]

/-- The maximal contiguous digit runs of a string, as numbers, left to
right (`acc` holds the digits of the current run, reversed). -/
def digitRunsGo : List Char → List Char → List Nat
  | [], acc => if acc.isEmpty then [] else [digitsVal acc.reverse]
  | c :: cs, acc =>
    if c.isDigit then digitRunsGo cs (c :: acc)
    else if acc.isEmpty then digitRunsGo cs []
    else digitsVal acc.reverse :: digitRunsGo cs []

/-- The maximal contiguous digit runs of a string, as numbers. -/
def digitRuns (t : String) : List Nat :=
  digitRunsGo t.data []

/-- Modelled from the spec: `classify_severity_0_10` is described in
spec §4.1 but has no implementation in src/app.py (severity is collected
via the scale buttons of `render_bubble`).  Following the spec's words:
first check the fixed word-to-number mapping — if any mapped word
appears, return its value; otherwise scan for contiguous digit runs,
parse each as an integer, and return the first one in range [0, 10];
`none` when no severity signal is found.  Input is lower-cased first,
as the sibling classifier `classify_yes_no` does. -/
def classify_severity_0_10 (raw : String) : Option Nat :=
  match severityWords.find? (fun p => pyIn p.1 (pyLower raw)) with
  | some p => some p.2
  | none => (digitRuns (pyLower raw)).find? (fun n => decide (n ≤ 10))

/-! ### The conversation session (`init_state`, `push_bot`, `push_user`,
`advance`; src/app.py lines 936-1024)

The two clock reads (`now_ts()` for message timestamps, `datetime.now()`
inside `generate_report`) are the explicit arguments `ts` and `now`. -/

/-- `replAux pat rep l` replaces every non-overlapping occurrence of
`pat` in `l` by `rep`, left to right, as Python `str.replace` does. -/
def replAux (pat rep : List Char) : List Char → List Char
  | [] => []
  | c :: cs =>
    if h : pat.isEmpty then c :: cs
    else if listIsPre pat (c :: cs) then rep ++ replAux pat rep ((c :: cs).drop pat.length)
    else c :: replAux pat rep cs
termination_by l => l.length
decreasing_by
  · simp only [List.length_drop, List.length_cons]
    have hp : 0 < pat.length := by
      cases pat with
      | nil => simp at h
      | cons a as => simp
    omega
  · simp

/-- Python `text.replace(pat, rep)`. -/
def pyReplace (text pat rep : String) : String :=
  ⟨replAux pat.data rep.data text.data⟩

/-- The `extra` payload attached to a bot message (rendering hint). -/
inductive Extra where
  | bodyDiagram
  | painScale
  | chipsOf (chips : List String)
deriving DecidableEq, Repr

/-- One entry of `st.session_state.messages`. -/
structure ChatMsg where
  role : String
  text : String
  ts : String
  extra : Option Extra := none
deriving DecidableEq, Repr

/-- The session state (`init_state`, lines 936-952).  `showBody`,
`selectedRegions` and `inputClear` are the remaining UI fields of the
`defaults` dict. -/
structure SessState where
  messages : List ChatMsg
  currentStep : String
  symptoms : Dict
  awaitingInput : Bool
  conversationDone : Bool
  report : Option String
  showBody : Bool
  selectedRegions : List String
  inputClear : Bool
deriving DecidableEq, Repr

/-- The `defaults` of `init_state`. -/
def init_state : SessState :=
  { messages := [], currentStep := "welcome", symptoms := [],
    awaitingInput := false, conversationDone := false, report := none,
    showBody := false, selectedRegions := [], inputClear := false }

/-- `push_bot(text, extra)` (lines 958-966): substitute the stored
patient name for the placeholder, then append a bot message. -/
def push_bot (ts text : String) (extra : Option Extra) (st : SessState) : SessState :=
  let name := (dget st.symptoms "patient_name").getD ""
  { st with messages := st.messages
      ++ [{ role := "bot", text := pyReplace text "\x7bname\x7d" name, ts := ts, extra := extra }] }

/-- `push_user(text)` (lines 969-973). -/
def push_user (ts ans : String) (st : SessState) : SessState :=
  { st with messages := st.messages ++ [{ role := "user", text := ans, ts := ts }] }

/-- `advance(user_answer)` (lines 979-1023) with explicit fuel for the
self-call on `info` steps; the walk strictly advances through the flow,
so `make_flow.length + 1` units of fuel (see `advance`) always suffice
from app-reachable states.  Fuel exhaustion is `.error ()`, which also
models the unreachable `nstep = None` lookup failure (a `TypeError` in
Python). -/
def advanceFuel : Nat → String → String → Option String → SessState → Except Unit SessState
  | 0, _, _, _, _ => .error ()
  | fuel + 1, ts, now, userAnswer, st =>
    match get_step st.currentStep with
    | none => .ok st
    | some step =>
      let st1 :=
        match userAnswer, step.key with
        | some ans, some k => push_user ts ans { st with symptoms := dset st.symptoms k ans }
        | _, _ => st
      match next_step_id st1.currentStep st1.symptoms with
      | .error e => .error e
      | .ok none =>
        match generate_report now st1.symptoms with
        | .error e => .error e
        | .ok rep => .ok { st1 with conversationDone := true, report := some rep }
      | .ok (some nid) =>
        let st2 := { st1 with currentStep := nid }
        match get_step nid with
        | none => .error ()
        | some nstep =>
          let extra : Option Extra :=
            if nstep.type == "body" then some .bodyDiagram
            else if nstep.type == "scale" then some .painScale
            else if nstep.type == "chips" then some (.chipsOf nstep.chips)
            else none
          let st3 := push_bot ts nstep.msg extra st2
          match (if nstep.type == "info" then advanceFuel fuel ts now none st3 else .ok st3) with
          | .error e => .error e
          | .ok st4 => .ok { st4 with awaitingInput := true }

/-- `advance(user_answer)`: process the user's answer for the current
step (when the step stores one), then move to the next visible step,
finishing the conversation and generating the report when none remains. -/
def advance (ts now : String) (userAnswer : Option String) (st : SessState) : Except Unit SessState :=
  advanceFuel (make_flow.length + 1) ts now userAnswer st

/-- Decidable equality for `Except`, for evaluating the embedded
functions on concrete inputs. -/
instance {ε α : Type _} [DecidableEq ε] [DecidableEq α] : DecidableEq (Except ε α)
  | .error x, .error y =>
    decidable_of_iff (x = y) ⟨congrArg Except.error, fun h => by injection h⟩
  | .error _, .ok _ => isFalse (fun h => Except.noConfusion h)
  | .ok _, .error _ => isFalse (fun h => Except.noConfusion h)
  | .ok x, .ok y =>
    decidable_of_iff (x = y) ⟨congrArg Except.ok, fun h => by injection h⟩

/-!
## Theorems

Helper lemmas first, then one theorem per claim (with its witness or
counterexample). -/

/-! ### String-prefix helper lemmas -/

theorem listIsPre_append (a : List Char) :
    ∀ b c, listIsPre a b = true → listIsPre a (b ++ c) = true := by
  induction a with
  | nil => intro b c _; rfl
  | cons x xs ih =>
    intro b c h
    cases b with
    | nil => simp [listIsPre] at h
    | cons y ys =>
      simp only [listIsPre, Bool.and_eq_true] at h ⊢
      exact ⟨h.1, ih ys c h.2⟩

theorem listIsPre_append_false (a : List Char) :
    ∀ b c, a.length ≤ b.length → listIsPre a b = false → listIsPre a (b ++ c) = false := by
  induction a with
  | nil => intro b c _ h; simp [listIsPre] at h
  | cons x xs ih =>
    intro b c hlen h
    cases b with
    | nil => simp at hlen
    | cons y ys =>
      simp only [listIsPre, Bool.and_eq_false_iff] at h ⊢
      rcases h with h | h
      · exact Or.inl h
      · exact Or.inr (ih ys c (by simpa using hlen) h)

theorem str_data_append (x y : String) : (x ++ y).data = x.data ++ y.data := by
  cases x; cases y; rfl

theorem startsW_append (p x y : String) (h : startsW p x = true) :
    startsW p (x ++ y) = true := by
  unfold startsW at h ⊢
  rw [str_data_append]
  exact listIsPre_append _ _ _ h

theorem startsW_append_false (p x y : String) (hlen : p.data.length ≤ x.data.length)
    (h : startsW p x = false) : startsW p (x ++ y) = false := by
  unfold startsW at h ⊢
  rw [str_data_append]
  exact listIsPre_append_false _ _ _ hlen h

theorem ne_of_startsW (p x y : String) (hx : startsW p x = true)
    (hy : startsW p y = false) : x ≠ y := by
  intro h
  rw [h] at hx
  rw [hx] at hy
  exact Bool.noConfusion hy

/-! ### Whitespace lemmas for the classifier -/

theorem lowerChar_of_space (c : Char) (h : isPySpace c = true) : lowerChar c = c := by
  have hc : c = ' ' ∨ c = '\t' ∨ c = '\n' ∨ c = '\r' ∨ c = '\x0b' ∨ c = '\x0c' := by
    simpa [isPySpace, or_assoc] using h
  rcases hc with h | h | h | h | h | h <;> subst h <;> decide

theorem map_lower_of_all_space (l : List Char) (h : l.all isPySpace = true) :
    l.map lowerChar = l := by
  induction l with
  | nil => rfl
  | cons c cs ih =>
    simp only [List.all_cons, Bool.and_eq_true] at h
    simp [lowerChar_of_space c h.1, ih h.2]

theorem dropWhile_of_all_space (l : List Char) (h : l.all isPySpace = true) :
    l.dropWhile isPySpace = [] := by
  cases l with
  | nil => rfl
  | cons c cs =>
    simp only [List.all_cons, Bool.and_eq_true] at h
    simp [List.dropWhile_cons, h.1, dropWhile_of_all_space cs h.2]

theorem pyLower_of_all_space (v : String) (h : v.data.all isPySpace = true) :
    pyLower v = v := by
  unfold pyLower
  rw [map_lower_of_all_space v.data h]

theorem pyStrip_of_all_space (v : String) (h : v.data.all isPySpace = true) :
    pyStrip v = "" := by
  unfold pyStrip
  rw [dropWhile_of_all_space v.data h]
  rfl

/-! ### Claim C6 -/

/-- Claim C6: the yes/no answer classifier `_yes` classifies `"No"` as
not positive (negative), `"Yes, a lot"` as positive, and `""` as not
positive (the source's classifier is boolean: both "negative" and
"unclear" render as `false`, i.e. not positive); and no empty or
whitespace-only input is ever classified as positive. -/
theorem C6_yes_no_classifier :
    _yes "No" = false ∧ _yes "Yes, a lot" = true ∧ _yes "" = false ∧
    (∀ v : String, v.data.all isPySpace = true → _yes v = false) := by
  refine ⟨by decide, by decide, by decide, ?_⟩
  intro v hv
  unfold _yes
  rw [pyLower_of_all_space v hv, pyStrip_of_all_space v hv]
  decide

/-- Witness for C6 at the whitespace-only input `" "`. -/
theorem C6_yes_no_classifier_witness : _yes " " = false :=
  C6_yes_no_classifier.2.2.2 " " (by decide)

/-! ### Claim C7 -/

/-- Claim C7: the severity classifier (modelled from the spec, having no
implementation in src/app.py) first applies the fixed word-to-number
map and otherwise returns the first contiguous digit run in [0, 10]:
`"7/10" ↦ 7`, `"severe" ↦ 8`, `"twelve" ↦ None`; every classified value
lies in the 0-10 range. -/
theorem C7_classify_severity :
    classify_severity_0_10 "7/10" = some 7 ∧
    classify_severity_0_10 "severe" = some 8 ∧
    classify_severity_0_10 "twelve" = none ∧
    (∀ raw n, classify_severity_0_10 raw = some n → n ≤ 10) := by
  refine ⟨by decide, by decide, by decide, ?_⟩
  intro raw n h
  unfold classify_severity_0_10 at h
  rcases hf : severityWords.find? (fun p => pyIn p.1 (pyLower raw)) with _ | p
  · rw [hf] at h
    simp only at h
    have := List.find?_some h
    simpa using this
  · rw [hf] at h
    simp only [Option.some.injEq] at h
    have hp : p ∈ severityWords := List.mem_of_find?_eq_some hf
    subst h
    fin_cases hp <;> decide

/-- Witness for C7: the range bound applied at `"7/10"`. -/
theorem C7_classify_severity_witness : (7 : Nat) ≤ 10 :=
  C7_classify_severity.2.2.2 "7/10" 7 (by decide)

/-! ### Navigator lemmas -/

/-- Every `cond` evaluates without raising as long as the fatigue
predicate does (the other two shapes are total). -/
theorem evalCond_isOk (c : Cond) (s : Dict) (h : fatigueOk s = true) :
    ∃ b, evalCond c s = .ok b := by
  cases c with
  | yesOf k => exact ⟨_, rfl⟩
  | lostIn k => exact ⟨_, rfl⟩
  | fatigueGe4 =>
    unfold fatigueOk at h
    cases hd : dget s "fatigue_level" with
    | none => exact ⟨_, by simp only [evalCond]; rw [hd]⟩
    | some v =>
      rw [hd] at h
      simp only [numStrOk, Bool.or_eq_true, beq_iff_eq] at h
      by_cases hv : v = ""
      · exact ⟨false, by simp only [evalCond]; rw [hd]; simp [hv]⟩
      · rcases h with h | h
        · exact absurd h hv
        · obtain ⟨n, hn⟩ := Option.isSome_iff_exists.mp h
          exact ⟨decide ((4 : Int) ≤ n), by simp only [evalCond]; rw [hd]; simp [hv, hn]⟩

/-- The positional walk of `next_step_id` returns exactly the first
step of the remaining list whose `cond` is absent or true, provided no
`cond` raises. -/
theorem nextFrom_eq_find (l : List Step) (s : Dict) (h : fatigueOk s = true) :
    nextFrom l s = .ok ((l.find? (fun st => included st s)).map (fun st => st.id)) := by
  induction l with
  | nil => rfl
  | cons st rest ih =>
    unfold nextFrom
    cases hc : st.cond with
    | none => simp [List.find?_cons, included, hc]
    | some c =>
      obtain ⟨b, hb⟩ := evalCond_isOk c s h
      cases b with
      | true => simp [List.find?_cons, included, hc, hb]
      | false => simp [List.find?_cons, included, hc, hb, ih]

/-! ### Claim C1 -/

/-- Counterexample to C1 as stated: on the answer mapping
`{fatigue_level: "x"}` the fatigue `include_if` raises `ValueError`
inside `next_step_id("fatigue_q1", ...)`, so the navigator neither
returns a step id nor `None` — although an included candidate
(`mood_q1`, whose `include_if` is absent) does remain. -/
theorem C1_cex_fatigue_cond_raises :
    next_step_id "fatigue_q1" [("fatigue_level", "x")] = .error () ∧
    specNextStep "fatigue_q1" [("fatigue_level", "x")] = some "mood_q1" := by
  constructor <;> decide

/-- Claim C1 (amended): for every current step id and every answer
mapping on which the include_if predicates evaluate without raising
(`fatigueOk`: the stored fatigue level, if any, is empty or an integer
numeral — the only partial predicate), `next_step_id` returns the id of
the first candidate step after the current one whose `include_if` is
absent or true, and `None` when no such included step remains; the walk
is a structural recursion over the remaining steps, hence terminates. -/
theorem C1_next_step_first_included (currentId : String) (s : Dict)
    (h : fatigueOk s = true) :
    next_step_id currentId s = .ok (specNextStep currentId s) := by
  unfold next_step_id specNextStep
  cases hidx : pyIndex (make_flow.map (fun st => st.id)) currentId with
  | none => rfl
  | some idx => exact nextFrom_eq_find _ s h

/-- Witness for C1 at `pain_q1` with no answers yet: all pain follow-ups
are skipped and the navigator lands on `mouth_q1`. -/
theorem C1_next_step_first_included_witness :
    next_step_id "pain_q1" [] = .ok (some "mouth_q1") := by
  have h := C1_next_step_first_included "pain_q1" [] (by decide)
  rw [h]
  decide

/-! ### Claim C10 -/

/-- `pain_sev = int(s.get("pain_severity", 0) or 0)` does not raise when
the stored value is absent, empty or an integer numeral. -/
theorem painSevE_isOk (s : Dict) (h : numStrOk (dget s "pain_severity") = true) :
    ∃ n, painSevE s = .ok n := by
  cases hd : dget s "pain_severity" with
  | none => exact ⟨_, by simp only [painSevE]; rw [hd]⟩
  | some v =>
    rw [hd] at h
    simp only [numStrOk, Bool.or_eq_true, beq_iff_eq] at h
    by_cases hv : v = ""
    · exact ⟨0, by simp only [painSevE]; rw [hd]; simp [hv]⟩
    · rcases h with h | h
      · exact absurd h hv
      · obtain ⟨n, hn⟩ := Option.isSome_iff_exists.mp h
        exact ⟨n, by simp only [painSevE]; rw [hd]; simp [hv, hn]⟩

/-- Counterexample to C10 as stated: on answer mappings with arbitrary
strings, `int(...)` raises — `next_step_id` from the fatigue question
raises on `{fatigue_level: "tired"}` and `generate_report` raises on
`{pain_severity: "high"}` — instead of returning normally. -/
theorem C10_cex_int_raises :
    next_step_id "fatigue_q1" [("fatigue_level", "tired")] = .error () ∧
    generate_report "X" [("pain_severity", "high")] = .error () := by
  constructor <;> decide

/-- Claim C10 (amended): for every answer mapping whose `fatigue_level`
and `pain_severity` values, when present and nonempty, are integer
numerals (the only shape the scale widget produces), `next_step_id` and
`generate_report` return normally and never raise. -/
theorem C10_no_raise_on_numeric_inputs (currentId now : String) (s : Dict)
    (hf : numStrOk (dget s "fatigue_level") = true)
    (hp : numStrOk (dget s "pain_severity") = true) :
    (∃ r, next_step_id currentId s = .ok r) ∧
    (∃ t, generate_report now s = .ok t) := by
  constructor
  · unfold next_step_id
    cases hidx : pyIndex (make_flow.map (fun st => st.id)) currentId with
    | none => exact ⟨none, rfl⟩
    | some idx => exact ⟨_, nextFrom_eq_find _ s hf⟩
  · obtain ⟨n, hn⟩ := painSevE_isOk s hp
    refine ⟨String.intercalate "\n" (reportLines now s n), ?_⟩
    unfold generate_report
    rw [hn]

/-- Witness for C10 at a scale-shaped answer mapping. -/
theorem C10_no_raise_on_numeric_inputs_witness :
    (∃ r, next_step_id "fatigue_q1" [("fatigue_level", "7"), ("pain_severity", "8")] = .ok r) ∧
    (∃ t, generate_report "X" [("fatigue_level", "7"), ("pain_severity", "8")] = .ok t) :=
  C10_no_raise_on_numeric_inputs "fatigue_q1" "X"
    [("fatigue_level", "7"), ("pain_severity", "8")] (by decide) (by decide)

/-! ### Alert-message lemmas -/

theorem startsW_appendPair_false (p a t b : String)
    (hlen : p.data.length ≤ a.data.length)
    (h : startsW p a = false) : startsW p ((a ++ t) ++ b) = false := by
  apply startsW_append_false
  · rw [str_data_append, List.length_append]; omega
  · exact startsW_append_false p a t hlen h

theorem painRelated_sevMsg (n : Int) : painRelated (sevPainMsg n) = true := by
  have h1 : startsW "Severe pain" (sevPainMsg n) = true := by
    apply startsW_append
    apply startsW_append
    decide
  simp [painRelated, h1]

theorem painRelated_modMsg (n : Int) : painRelated (modPainMsg n) = true := by
  have h2 : startsW "Moderate pain" (modPainMsg n) = true := by
    apply startsW_append
    apply startsW_append
    decide
  simp [painRelated, h2]

theorem painRelated_weightMsg (s : Dict) : painRelated (weightMsg s) = false := by
  have h1 : startsW "Severe pain" (weightMsg s) = false :=
    startsW_append_false _ _ _ (by decide) (by decide)
  have h2 : startsW "Moderate pain" (weightMsg s) = false :=
    startsW_append_false _ _ _ (by decide) (by decide)
  simp [painRelated, h1, h2]

theorem painRelated_dietMsg : painRelated dietMsg = false := by decide

theorem painRelated_moodHighMsg : painRelated moodHighMsg = false := by decide

theorem painRelated_moodWatchMsg : painRelated moodWatchMsg = false := by decide

theorem painRelated_breathMsg : painRelated breathMsg = false := by decide

theorem countP_ite_singleton {α : Type _} (p : α → Bool) (c : Prop) [Decidable c] (m : α) :
    List.countP p (if c then [m] else []) = if c then (if p m = true then 1 else 0) else 0 := by
  split <;> simp [List.countP_cons, List.countP_nil]

theorem mem_ite_singleton {α : Type _} (a x : α) (c : Prop) [Decidable c] :
    a ∈ (if c then [x] else []) ↔ c ∧ a = x := by
  split <;> rename_i h <;> simp [h]

theorem countP_pain_high (sev : Int) (s : Dict) :
    (high_alerts sev s).countP painRelated = if sev ≥ 7 then 1 else 0 := by
  unfold high_alerts
  rw [List.countP_append, List.countP_append, List.countP_append,
    countP_ite_singleton, countP_ite_singleton, countP_ite_singleton, countP_ite_singleton,
    painRelated_sevMsg, painRelated_dietMsg, painRelated_moodHighMsg, painRelated_breathMsg]
  simp

theorem countP_pain_watch (sev : Int) (s : Dict) :
    (watch_alerts sev s).countP painRelated = if ¬sev ≥ 7 ∧ sev ≥ 4 then 1 else 0 := by
  unfold watch_alerts
  rw [List.countP_append, List.countP_append,
    countP_ite_singleton, countP_ite_singleton, countP_ite_singleton,
    painRelated_modMsg, painRelated_weightMsg, painRelated_moodWatchMsg]
  simp

/-! ### Claim C2 -/

/-- Claim C2: for every answer set whose stored pain severity parses to
`sev`: at severity ≥ 7 the high-priority list holds exactly one
pain-related entry and the monitor list none; at severity 4-6 the
monitor list holds exactly one pain-related entry and the high-priority
list none; below 4 neither list holds one. -/
theorem C2_pain_severity_alert_thresholds (s : Dict) (sev : Int)
    (h : painSevE s = .ok sev) :
    (sev ≥ 7 → (high_alerts sev s).countP painRelated = 1 ∧
      (watch_alerts sev s).countP painRelated = 0) ∧
    (4 ≤ sev ∧ sev ≤ 6 → (watch_alerts sev s).countP painRelated = 1 ∧
      (high_alerts sev s).countP painRelated = 0) ∧
    (sev < 4 → (high_alerts sev s).countP painRelated = 0 ∧
      (watch_alerts sev s).countP painRelated = 0) := by
  refine ⟨fun h7 => ?_, fun h46 => ?_, fun h4 => ?_⟩ <;>
    rw [countP_pain_high, countP_pain_watch] <;>
    constructor <;> split_ifs <;> omega

/-- Witness for C2 at the answer set `{pain_severity: "8"}` (the spec's
severity-8 example). -/
theorem C2_pain_severity_alert_thresholds_witness :
    (high_alerts 8 [("pain_severity", "8")]).countP painRelated = 1 ∧
    (watch_alerts 8 [("pain_severity", "8")]).countP painRelated = 0 :=
  (C2_pain_severity_alert_thresholds [("pain_severity", "8")] 8 (by decide)).1 (by decide)

/-! ### Claim C3 -/

/-- Claim C3, evaluated at the failing input: the diet answer
`"Soft foods only"` — one of the flow's own chip choices, which is
neither the liquids-only option nor a feeding tube — fires the
nutritional-consult high-priority alert, because line 784 tests the
substring `"only"`, which also occurs in "soft foods only".  This
contradicts the alert's own message text ("liquids only or feeding
tube"), so the code, not the claim, is wrong. -/
theorem C3_soft_foods_only_fires_consult :
    alertsOf [("swallow_diet", "Soft foods only")] = .ok ([dietMsg], []) ∧
    dietFlag [("swallow_diet", "Soft foods only")] = true := by
  constructor <;> decide

/-! ### Claim C4 -/

/-- Counterexample to C4 as stated: breathing difficulty reported as
`"A little"` — with no severe-descriptor keyword in any answer and no
oxygen-need flag (the app collects none) — still produces the breathing
entry in high_priority, and the monitor list stays empty. -/
theorem C4_cex_breathing_monitor_never :
    alertsOf [("breathing_present", "A little")] = .ok ([breathMsg], []) := by
  decide

theorem breathMsg_ne_sevMsg (n : Int) : breathMsg ≠ sevPainMsg n :=
  ne_of_startsW "Breathing" _ _ (by decide)
    (startsW_appendPair_false _ _ _ _ (by decide) (by decide))

theorem breathMsg_ne_modMsg (n : Int) : breathMsg ≠ modPainMsg n :=
  ne_of_startsW "Breathing" _ _ (by decide)
    (startsW_appendPair_false _ _ _ _ (by decide) (by decide))

theorem breathMsg_ne_weightMsg (s : Dict) : breathMsg ≠ weightMsg s :=
  ne_of_startsW "Breathing" _ _ (by decide)
    (startsW_append_false _ _ _ (by decide) (by decide))

/-- Claim C4 (amended): whenever breathing difficulty is reported
present (the `_yes` test of line 797), the breathing alert goes to the
high_priority list — unconditionally, with no severe-descriptor keyword
or oxygen-need distinction — and a breathing entry never appears in the
monitor list. -/
theorem C4_breathing_always_high_priority (sev : Int) (s : Dict) :
    (breathMsg ∈ high_alerts sev s ↔ breathFlag s = true) ∧
    breathMsg ∉ watch_alerts sev s := by
  constructor
  · unfold high_alerts
    simp [List.mem_append, mem_ite_singleton, breathMsg_ne_sevMsg,
      (by decide : breathMsg ≠ dietMsg), (by decide : breathMsg ≠ moodHighMsg)]
  · unfold watch_alerts
    simp [List.mem_append, mem_ite_singleton, breathMsg_ne_modMsg,
      breathMsg_ne_weightMsg, (by decide : breathMsg ≠ moodWatchMsg)]

/-! ### Claim C5 -/

/-- Counterexample to C5 as stated: `generate_report` renders the clock
reading into the Report Date header line, so two calls on the same
unchanged answer set made at different clock readings yield different
text — the function is not a pure function of the answer set alone. -/
theorem C5_cex_report_not_byte_identical :
    generate_report "January 01, 2026 at 10:00 AM" [] ≠
      generate_report "January 01, 2026 at 10:01 AM" [] ∧
    (generate_report "January 01, 2026 at 10:00 AM" []).toOption.isSome = true := by
  constructor <;> decide

/-- Claim C5 (amended): `generate_report` is a pure function of the
answer set and the clock reading; apart from the Report Date header
line (index 5 of the emitted lines, the clock's only use), the report
depends on the answer set alone — two calls on an unchanged answer set
agree on every other line. -/
theorem C5_report_pure_except_date_line (now₁ now₂ : String) (s : Dict) (sev : Int) :
    (reportLines now₁ s sev).eraseIdx 5 = (reportLines now₂ s sev).eraseIdx 5 ∧
    (reportLines now₁ s sev).get? 5 = some ("  Report Date   : " ++ now₁) := by
  constructor <;> rfl

/-! ### Claim C8 -/

theorem high_line_ne_noAlerts (a : String) :
    "  🔴 HIGH PRIORITY: " ++ a ≠ noAlertsLine :=
  ne_of_startsW "  🔴" _ _ (startsW_append _ _ _ (by decide)) (by decide)

theorem watch_line_ne_noAlerts (a : String) :
    "  ⚠️  MONITOR: " ++ a ≠ noAlertsLine :=
  ne_of_startsW "  ⚠" _ _ (startsW_append _ _ _ (by decide)) (by decide)

/-- Counterexample to C8 as stated: on the answer set
`{pain_severity: "9"}` the high-priority list is nonempty and the
monitor list is empty, yet the rendered alerts section contains neither
a monitor line nor the "none flagged" placeholder — the empty monitor
list is left with no statement. -/
theorem C8_cex_monitor_silently_empty :
    high_alerts 9 [("pain_severity", "9")] ≠ [] ∧
    watch_alerts 9 [("pain_severity", "9")] = [] ∧
    noAlertsLine ∉ alertLines (high_alerts 9 [("pain_severity", "9")])
      (watch_alerts 9 [("pain_severity", "9")]) ∧
    (alertLines (high_alerts 9 [("pain_severity", "9")])
      (watch_alerts 9 [("pain_severity", "9")])).countP
        (fun l => startsW "  ⚠️  MONITOR: " l) = 0 := by
  refine ⟨by decide, by decide, by decide, by decide⟩

/-- Claim C8 (amended): the fixed "none flagged" placeholder appears in
the rendered alerts section exactly when *both* alert lists are empty;
a single empty list renders nothing (there is no per-list placeholder,
so one empty list next to a non-empty one is silently empty). -/
theorem C8_placeholder_iff_both_empty (hs ws : List String) :
    noAlertsLine ∈ alertLines hs ws ↔ hs = [] ∧ ws = [] := by
  unfold alertLines
  constructor
  · intro hmem
    rcases List.mem_append.mp hmem with hmem' | hmem'
    · rcases List.mem_append.mp hmem' with hm | hm
      · obtain ⟨a, _, ha⟩ := List.mem_map.mp hm
        exact absurd ha (high_line_ne_noAlerts a)
      · obtain ⟨a, _, ha⟩ := List.mem_map.mp hm
        exact absurd ha (watch_line_ne_noAlerts a)
    · rw [mem_ite_singleton] at hmem'
      have hc := hmem'.1
      simp only [Bool.and_eq_true, List.isEmpty_iff] at hc
      exact hc
  · rintro ⟨rfl, rfl⟩
    decide

/-! ### Claim C9 -/

theorem get_step_done : get_step "done" = some doneStep := by decide

theorem next_step_id_done (s : Dict) : next_step_id "done" s = .ok none := rfl

/-- Counterexample to C9 as stated: the source has no
`SessionAlreadyComplete` error — submitting an answer on a completed
session (current step `"done"`, report generated at clock reading "T0")
is not rejected (`advance` does not raise) and does *not* leave the
session state unchanged: the report is recomputed at the new clock
reading "T1", so its Report Date line changes. -/
theorem C9_cex_advance_after_complete :
    advance "10:05 AM" "T1" (some "extra answer")
        { messages := [], currentStep := "done", symptoms := [],
          awaitingInput := true, conversationDone := true,
          report := (generate_report "T0" []).toOption,
          showBody := false, selectedRegions := [], inputClear := false } ≠
      Except.error () ∧
    advance "10:05 AM" "T1" (some "extra answer")
        { messages := [], currentStep := "done", symptoms := [],
          awaitingInput := true, conversationDone := true,
          report := (generate_report "T0" []).toOption,
          showBody := false, selectedRegions := [], inputClear := false } ≠
      Except.ok
        { messages := [], currentStep := "done", symptoms := [],
          awaitingInput := true, conversationDone := true,
          report := (generate_report "T0" []).toOption,
          showBody := false, selectedRegions := [], inputClear := false } := by
  constructor <;> decide

/-- Claim C9 (amended): submitting an answer when the session is
already complete (current step `"done"`) is not surfaced as an error;
the answer is silently dropped — the terminal step declares no answer
key, so the answer set, current step and transcript are unchanged and
the session stays complete — but the report field is recomputed at the
call's clock reading (only its Report Date line can differ, by
`C5_report_pure_except_date_line`). -/
theorem C9_advance_after_complete (ts now ans : String) (st : SessState) (rep : String)
    (hdone : st.currentStep = "done")
    (hrep : generate_report now st.symptoms = .ok rep) :
    advance ts now (some ans) st =
      .ok { st with conversationDone := true, report := some rep } := by
  obtain ⟨msgs, cur, sym, aw, cd, rp, sb, sr, ic⟩ := st
  dsimp only at hdone hrep ⊢
  subst hdone
  show (match generate_report now sym with
        | .error e => Except.error e
        | .ok r =>
          Except.ok (⟨msgs, "done", sym, aw, true, some r, sb, sr, ic⟩ : SessState)) =
      Except.ok (⟨msgs, "done", sym, aw, true, some rep, sb, sr, ic⟩ : SessState)
  rw [hrep]

/-- Witness for C9 at a concrete completed session. -/
theorem C9_advance_after_complete_witness :
    advance "ts" "N" (some "x")
        { messages := [], currentStep := "done", symptoms := [],
          awaitingInput := false, conversationDone := true, report := none,
          showBody := false, selectedRegions := [], inputClear := false } =
      Except.ok
        { messages := [], currentStep := "done", symptoms := [],
          awaitingInput := false, conversationDone := true,
          report := some (String.intercalate "\n" (reportLines "N" [] 0)),
          showBody := false, selectedRegions := [], inputClear := false } :=
  C9_advance_after_complete "ts" "N" "x" _ _ rfl rfl

end ChatReport
